import Mathlib

/-!
Shallow embedding of `src/app/logging_setup.py` (giftmanager).

The file models the three functions of the module:
* `get_log_level`  — normalizes a `--log-level` value (int / numeric string /
  level name) to an integer rank, or fails with `SystemExit`;
* `addLoggingLevel` — registers a custom severity level in the process-wide
  logging state, raising `AttributeError` on attribute collisions;
* `logging_setup`  — attaches console / file sinks with a fixed format string
  and sets the root logger level.

Python values that can reach `get_log_level` are modelled by `PyVal`;
exceptions by `PyError`; the mutable state of the `logging` module by
`LoggingState`, and the root logger plus the filesystem by `SetupState`.
-/

/-! ### Definitions -/

/-- Python values relevant to `get_log_level`: integers, strings, floats
(numeric, `int()` truncates them), and any other object (non-numeric,
`int()` raises `TypeError`), tagged by an opaque identifier. -/
inductive PyVal where
  | PInt : Int → PyVal
  | PStr : String → PyVal
  | PFloat : Rat → PyVal
  | PObj : String → PyVal
deriving DecidableEq

/-- Python exceptions raised by the module: `SystemExit(msg)`,
`AttributeError(msg)`, and `UnboundLocalError` (for the impossible
fall-through of the name chain in `get_log_level`). -/
inductive PyError where
  | systemExit : String → PyError
  | attributeError : String → PyError
  | unboundLocal : String → PyError
deriving DecidableEq

/-- Embedding of Python `str.lower()` (ASCII case folding, which is all the
level names need). -/
def pyLower (s : String) : String := ⟨s.data.map Char.toLower⟩

/-- Digit part of Python's `int()` grammar after the first digit:
`digit (["_"] digit)*`. Accumulates the digit characters. -/
def groupsAux : List Char → List Char → Option (List Char)
  | [], acc => some acc.reverse
  | c :: rest, acc =>
    if c = '_' then
      match rest with
      | [] => none
      | d :: rest' => if d.isDigit then groupsAux rest' (d :: acc) else none
    else if c.isDigit then groupsAux rest (c :: acc) else none

/-- Digit part of Python's `int()` grammar: a leading digit followed by
digit groups possibly separated by single underscores. -/
def digitsOf : List Char → Option (List Char)
  | [] => none
  | c :: rest => if c.isDigit then groupsAux rest [c] else none

/-- Numeric value of a list of decimal digit characters. -/
def natOfDigits (ds : List Char) : Nat :=
  ds.foldl (fun a c => 10 * a + (c.toNat - 48)) 0

/-- Optional sign followed by the digit part, as in Python's `int()`. -/
def parseSigned (l : List Char) : Option Int :=
  match l with
  | [] => none
  | c :: rest =>
    if c = '+' then (digitsOf rest).map (fun ds => (natOfDigits ds : Int))
    else if c = '-' then (digitsOf rest).map (fun ds => -(natOfDigits ds : Int))
    else (digitsOf (c :: rest)).map (fun ds => (natOfDigits ds : Int))

/-- Strip leading and trailing whitespace, as Python `int()` does before
parsing. -/
def pyStrip (l : List Char) : List Char :=
  ((l.dropWhile Char.isWhitespace).reverse.dropWhile Char.isWhitespace).reverse

/-- Embedding of Python `int(s)` on a string: `some n` when the string
parses as a (signed, underscore-grouped) decimal integer, `none` when
`int()` would raise `ValueError`. -/
def pyStrToInt? (s : String) : Option Int := parseSigned (pyStrip s.data)

/-- The statement `levelInput = int(levelInput)` guarded by
`except (TypeError, ValueError): pass` in `get_log_level`: integers are
unchanged, numeric strings become integers, floats truncate toward zero,
other strings and non-numeric objects are left as they are. -/
def pyIntCast (v : PyVal) : PyVal :=
  match v with
  | .PInt n => .PInt n
  | .PStr s =>
    match pyStrToInt? s with
    | some n => .PInt n
    | none => .PStr s
  | .PFloat q => .PInt (Int.tdiv q.num q.den)
  | .PObj t => .PObj t

/-- The fixed list of recognized level names in `get_log_level`. -/
def levelNames : List String :=
  ["spam", "debug", "info", "warning", "success", "error", "critical"]

/-- Embedding of `get_log_level` from `src/app/logging_setup.py`
(lines 127-168): try `int(levelInput)`, then return integers unchanged,
look strings up case-insensitively in the fixed name table, and raise
`SystemExit` otherwise. -/
def get_log_level (levelInput : PyVal) : Except PyError Int :=
  match pyIntCast levelInput with
  | .PInt n => .ok n
  | .PStr s =>
    if pyLower s ∈ levelNames then
      if pyLower s = "spam" then .ok 5
      else if pyLower s = "debug" then .ok 10
      else if pyLower s = "info" then .ok 20
      else if pyLower s = "warning" then .ok 30
      else if pyLower s = "success" then .ok 35
      else if pyLower s = "error" then .ok 40
      else if pyLower s = "critical" then .ok 50
      else .error (.unboundLocal "log_level_int")
    else .error (.systemExit ("ERROR: '" ++ s ++ "' is not a valid log level string."))
  | _ => .error (.systemExit "ERROR: --log-level should be an integer or valid log level string.")

/-- The name-to-rank table of `get_log_level`, as name/rank pairs. -/
def levelTable : List (String × Int) :=
  [("spam", 5), ("debug", 10), ("info", 20), ("warning", 30),
   ("success", 35), ("error", 40), ("critical", 50)]

/-- Characters whose lower-casing is `d` are neither whitespace, nor a
sign, nor a digit: exactly what is needed to make Python `int()` fail. -/
def goodLower (d : Char) : Prop :=
  ∀ c : Char, c.toLower = d →
    c.isWhitespace = false ∧ c ≠ '+' ∧ c ≠ '-' ∧ c.isDigit = false

/-- Mutable state of the `logging` facility touched by `addLoggingLevel`:
attribute names on the `logging` module, attribute names on the logger
class, and the two direction of the level registry maintained by
`logging.addLevelName`. -/
structure LoggingState where
  moduleAttrs : List String
  loggerClassAttrs : List String
  levelToName : List (Int × String)
  nameToLevel : List (String × Int)
deriving DecidableEq

/-- Dictionary update: replace the value at the key if present, else add
the pair (the semantics of `d[k] = v`). -/
def updateAssoc {α β : Type} [DecidableEq α] : List (α × β) → α → β → List (α × β)
  | [], k, v => [(k, v)]
  | (k', v') :: rest, k, v =>
    if k' = k then (k, v) :: rest else (k', v') :: updateAssoc rest k v

/-- Dictionary lookup (`d.get(k)`). -/
def lookupAssoc {α β : Type} [DecidableEq α] : List (α × β) → α → Option β
  | [], _ => none
  | (k', v') :: rest, k => if k' = k then some v' else lookupAssoc rest k

/-- `if not methodName: methodName = levelName.lower()` — `None` and the
empty string are both falsy. -/
def resolveMethodName (levelName : String) (methodName : Option String) : String :=
  match methodName with
  | none => pyLower levelName
  | some m => if m = "" then pyLower levelName else m

/-- Embedding of the nested `addLoggingLevel` from `src/app/logging_setup.py`
(lines 23-78): three `hasattr` collision checks raising `AttributeError`,
then `addLevelName` plus three `setattr` calls. The returned state is the
logging state as the function leaves it (unchanged when it raises, since
every check precedes every mutation in the source). -/
def addLoggingLevel (st : LoggingState) (levelName : String) (levelNum : Int)
    (methodName : Option String) : Except PyError Unit × LoggingState :=
  let m := resolveMethodName levelName methodName
  if levelName ∈ st.moduleAttrs then
    (.error (.attributeError (levelName ++ " already defined in logging module")), st)
  else if m ∈ st.moduleAttrs then
    (.error (.attributeError (m ++ " already defined in logging module")), st)
  else if m ∈ st.loggerClassAttrs then
    (.error (.attributeError (m ++ " already defined in logger class")), st)
  else
    (.ok (), { moduleAttrs := m :: levelName :: st.moduleAttrs,
               loggerClassAttrs := m :: st.loggerClassAttrs,
               levelToName := updateAssoc st.levelToName levelNum levelName,
               nameToLevel := updateAssoc st.nameToLevel levelName levelNum })

/-- The call raised `AttributeError` (first component is that error). -/
def raisesAttributeError (r : Except PyError Unit × LoggingState) : Prop :=
  ∃ msg, r.1 = .error (.attributeError msg)

/-- The shared format string passed to both the plain `Formatter` and
`coloredlogs.install` in `logging_setup`. -/
def fmtString : String :=
  "%(asctime)s :: %(levelname)-8s :: %(funcName)-17s - %(message)s"

/-- An output sink attached to a logger: a console stream handler (with
optional formatter and a colorized flag) or a file handler (file name and
optional formatter). -/
inductive Sink where
  | console : Option String → Bool → Sink
  | file : String → Option String → Sink
deriving DecidableEq

/-- Formatter carried by a sink. -/
def sinkFmt : Sink → Option String
  | .console f _ => f
  | .file _ f => f

/-- The process-wide root logger: attached handlers and minimum level. -/
structure RootLogger where
  handlers : List Sink
  level : Int
deriving DecidableEq

/-- Process state touched by `logging_setup`: the `logging` module state,
the root logger, and the files created in the working directory. -/
structure SetupState where
  logging : LoggingState
  root : RootLogger
  files : List String
deriving DecidableEq

/-- Embedding of `coloredlogs.install(level=..., logger=root, fmt=...)`:
it attaches a colorized console handler carrying `fmt` to the logger and
lowers the logger level to `level` if the current effective level is
higher (`coloredlogs.adjust_level`). -/
def coloredlogs_install (root : RootLogger) (level : Int) (fmt : String) : RootLogger :=
  let root' : RootLogger :=
    { root with handlers := root.handlers ++ [Sink.console (some fmt) true] }
  if level < root'.level then { root' with level := level } else root'

/-- Embedding of `logging_setup` from `src/app/logging_setup.py`
(lines 13-124), with the current date string passed in for
`datetime.datetime.now().strftime("%Y%m%d")`.  In source order: when
`logToFile` is set a `FileHandler` named `<today>.log` is created (which
creates the file), given the shared formatter, and attached to the root
logger; a plain `StreamHandler` is also built and given the formatter but
is never attached (the console sink comes from `coloredlogs.install`);
then the two custom levels are registered (each can raise
`AttributeError`, which propagates), the root level is set to `logLevel`,
and `coloredlogs.install` runs with that same level and format.
`logToConsole` and `logPath` are accepted and ignored, as in the source. -/
def logging_setup (st : SetupState) (today : String) (logLevel : Int)
    (logToConsole : Bool) (logToFile : Bool) (logPath : String) :
    Except PyError Unit × SetupState :=
  let fileName := today ++ ".log"
  let files := if logToFile then st.files ++ [fileName] else st.files
  let handlers :=
    if logToFile then st.root.handlers ++ [Sink.file fileName (some fmtString)]
    else st.root.handlers
  let st1 : SetupState :=
    { st with files := files, root := { st.root with handlers := handlers } }
  match addLoggingLevel st1.logging "SPAM" 5 none with
  | (.error e, lst) => (.error e, { st1 with logging := lst })
  | (.ok _, lst) =>
    match addLoggingLevel lst "SUCCESS" 35 none with
    | (.error e, lst') => (.error e, { st1 with logging := lst' })
    | (.ok _, lst') =>
      let root1 : RootLogger := { st1.root with level := logLevel }
      let root2 := coloredlogs_install root1 root1.level fmtString
      (.ok (), { st1 with logging := lst', root := root2 })

/-! ### Helper lemmas and claim theorems -/

lemma toNat_ofNat_small (m : Nat) (h : m < 55296) : (Char.ofNat m).toNat = m := by
  have hv : m.isValidChar := Or.inl h
  rw [Char.ofNat, dif_pos hv]
  rfl

/-- `Char.toLower c = d` forces `c` to be `d` itself or its upper-case
variant `u`. -/
lemma toLower_cases (c d u : Char) (hdu : u.toNat + 32 = d.toNat)
    (h : c.toLower = d) :
    c = d ∨ c = u := by
  simp only [Char.toLower] at h
  by_cases hc : c.toNat ≥ 65 ∧ c.toNat ≤ 90
  · rw [if_pos hc] at h
    right
    have h1 : (Char.ofNat (c.toNat + 32)).toNat = c.toNat + 32 :=
      toNat_ofNat_small _ (by omega)
    have h2 : c.toNat + 32 = d.toNat := by rw [← h, h1]
    have h3 : c.toNat = u.toNat := by omega
    calc c = Char.ofNat c.toNat := (Char.ofNat_toNat c).symm
      _ = Char.ofNat u.toNat := by rw [h3]
      _ = u := Char.ofNat_toNat u
  · rw [if_neg hc] at h
    left
    exact h

lemma goodLower_of_letter (d u : Char) (hdu : u.toNat + 32 = d.toNat)
    (hd : d.isWhitespace = false ∧ d ≠ '+' ∧ d ≠ '-' ∧ d.isDigit = false)
    (hu : u.isWhitespace = false ∧ u ≠ '+' ∧ u ≠ '-' ∧ u.isDigit = false) :
    goodLower d := by
  intro c h
  rcases toLower_cases c d u hdu h with rfl | rfl
  · exact hd
  · exact hu

lemma dropWhile_eq_self_of_head (p : Char → Bool) (l : List Char)
    (h : ∀ a, l.head? = some a → p a = false) : l.dropWhile p = l := by
  cases l with
  | nil => rfl
  | cons a t =>
    have ha := h a rfl
    simp [List.dropWhile_cons, ha]

lemma pyStrip_eq_self (l : List Char)
    (hh : ∀ a, l.head? = some a → a.isWhitespace = false)
    (hl : ∀ a, l.getLast? = some a → a.isWhitespace = false) :
    pyStrip l = l := by
  unfold pyStrip
  rw [dropWhile_eq_self_of_head _ _ hh]
  rw [dropWhile_eq_self_of_head _ _ (by
    intro a ha
    rw [List.head?_reverse] at ha
    exact hl a ha)]
  exact List.reverse_reverse l

/-- A string whose `lower()` is a fixed level name cannot be parsed by
Python `int()`: its first and last characters are case variants of
letters, so the parse fails at the first character. -/
lemma pyStrToInt_none (s name : String) (dh dl : Char)
    (h : pyLower s = name)
    (hh : name.data.head? = some dh) (hl : name.data.getLast? = some dl)
    (gh : goodLower dh) (gl : goodLower dl) :
    pyStrToInt? s = none := by
  have hdata : s.data.map Char.toLower = name.data := congrArg String.data h
  have hh' : (s.data.head?).map Char.toLower = some dh := by
    rw [← List.head?_map, hdata, hh]
  obtain ⟨c0, hc0, hc0l⟩ : ∃ c0, s.data.head? = some c0 ∧ Char.toLower c0 = dh := by
    cases e : s.data.head? with
    | none => rw [e] at hh'; simp at hh'
    | some c =>
      rw [e] at hh'
      exact ⟨c, rfl, Option.some.inj hh'⟩
  have hl' : (s.data.getLast?).map Char.toLower = some dl := by
    rw [← List.getLast?_map, hdata, hl]
  obtain ⟨cl, hcl, hcll⟩ : ∃ cl, s.data.getLast? = some cl ∧ Char.toLower cl = dl := by
    cases e : s.data.getLast? with
    | none => rw [e] at hl'; simp at hl'
    | some c =>
      rw [e] at hl'
      exact ⟨c, rfl, Option.some.inj hl'⟩
  obtain ⟨hw0, hp0, hm0, hd0⟩ := gh c0 hc0l
  obtain ⟨hwl, -, -, -⟩ := gl cl hcll
  have hstrip : pyStrip s.data = s.data := by
    apply pyStrip_eq_self
    · intro a ha
      rw [hc0] at ha
      injection ha with ha
      subst ha
      exact hw0
    · intro a ha
      rw [hcl] at ha
      injection ha with ha
      subst ha
      exact hwl
  unfold pyStrToInt?
  rw [hstrip]
  cases d : s.data with
  | nil => rw [d] at hc0; simp at hc0
  | cons a t =>
    rw [d] at hc0
    simp only [List.head?_cons, Option.some.injEq] at hc0
    subst hc0
    simp [parseSigned, hp0, hm0, digitsOf, hd0]

lemma addLoggingLevel_ok_state (st st' : LoggingState) (nm : String) (num : Int)
    (mo : Option String) (h : addLoggingLevel st nm num mo = (.ok (), st')) :
    st'.moduleAttrs = resolveMethodName nm mo :: nm :: st.moduleAttrs ∧
    st'.loggerClassAttrs = resolveMethodName nm mo :: st.loggerClassAttrs ∧
    st'.levelToName = updateAssoc st.levelToName num nm ∧
    st'.nameToLevel = updateAssoc st.nameToLevel nm num := by
  unfold addLoggingLevel at h
  by_cases h1 : nm ∈ st.moduleAttrs
  · simp [h1] at h
  · by_cases h2 : resolveMethodName nm mo ∈ st.moduleAttrs
    · simp [h1, h2] at h
    · by_cases h3 : resolveMethodName nm mo ∈ st.loggerClassAttrs
      · simp [h1, h2, h3] at h
      · simp only [h1, h2, h3, if_false, if_neg, Prod.mk.injEq, if_true] at h
        rw [← h.2]
        exact ⟨rfl, rfl, rfl, rfl⟩

lemma addLoggingLevel_error_of_collision (st : LoggingState) (nm : String) (num : Int)
    (mo : Option String)
    (h : nm ∈ st.moduleAttrs ∨ resolveMethodName nm mo ∈ st.moduleAttrs ∨
         resolveMethodName nm mo ∈ st.loggerClassAttrs) :
    raisesAttributeError (addLoggingLevel st nm num mo) := by
  unfold raisesAttributeError addLoggingLevel
  by_cases h1 : nm ∈ st.moduleAttrs
  · exact ⟨nm ++ " already defined in logging module", by simp [h1]⟩
  · by_cases h2 : resolveMethodName nm mo ∈ st.moduleAttrs
    · exact ⟨resolveMethodName nm mo ++ " already defined in logging module",
        by simp [h1, h2]⟩
    · by_cases h3 : resolveMethodName nm mo ∈ st.loggerClassAttrs
      · exact ⟨resolveMethodName nm mo ++ " already defined in logger class",
          by simp [h1, h2, h3]⟩
      · rcases h with h | h | h <;> contradiction

lemma lookup_updateAssoc {α β : Type} [DecidableEq α] (l : List (α × β)) (k : α) (v : β) :
    lookupAssoc (updateAssoc l k v) k = some v := by
  induction l with
  | nil => simp [updateAssoc, lookupAssoc]
  | cons p rest ih =>
    obtain ⟨k', v'⟩ := p
    by_cases hk : k' = k
    · subst hk
      simp [updateAssoc, lookupAssoc]
    · simp [updateAssoc, lookupAssoc, hk, ih]

/-- When both custom-level registrations succeed, `logging_setup` returns
the fully configured state. -/
lemma logging_setup_ok (st : SetupState) (today : String) (logLevel : Int)
    (ltc ltf : Bool) (lp : String) (lst lst' : LoggingState)
    (e1 : addLoggingLevel st.logging "SPAM" 5 none = (.ok (), lst))
    (e2 : addLoggingLevel lst "SUCCESS" 35 none = (.ok (), lst')) :
    logging_setup st today logLevel ltc ltf lp =
      (.ok (),
        { logging := lst',
          root :=
            { handlers :=
                (if ltf then st.root.handlers ++ [Sink.file (today ++ ".log") (some fmtString)]
                 else st.root.handlers) ++ [Sink.console (some fmtString) true],
              level := logLevel },
          files := if ltf then st.files ++ [today ++ ".log"] else st.files }) := by
  unfold logging_setup
  dsimp only
  rw [e1]
  dsimp only
  rw [e2]
  dsimp only
  simp [coloredlogs_install]

/-- C1: for every string whose lowercased form is one of the seven level
names, `get_log_level` returns the corresponding rank from the table
spam=5, debug=10, info=20, warning=30, success=35, error=40, critical=50. -/
theorem C1_level_names (s name : String) (r : Int)
    (hmem : (name, r) ∈ levelTable) (hs : pyLower s = name) :
    get_log_level (.PStr s) = .ok r := by
  simp only [levelTable, List.mem_cons, List.not_mem_nil, or_false, Prod.mk.injEq] at hmem
  rcases hmem with ⟨rfl, rfl⟩ | ⟨rfl, rfl⟩ | ⟨rfl, rfl⟩ | ⟨rfl, rfl⟩ |
    ⟨rfl, rfl⟩ | ⟨rfl, rfl⟩ | ⟨rfl, rfl⟩
  · have hp : pyStrToInt? s = none := pyStrToInt_none s "spam" 's' 'm' hs rfl rfl
      (goodLower_of_letter 's' 'S' (by decide) (by decide) (by decide))
      (goodLower_of_letter 'm' 'M' (by decide) (by decide) (by decide))
    simp [get_log_level, pyIntCast, hp, hs, levelNames]
  · have hp : pyStrToInt? s = none := pyStrToInt_none s "debug" 'd' 'g' hs rfl rfl
      (goodLower_of_letter 'd' 'D' (by decide) (by decide) (by decide))
      (goodLower_of_letter 'g' 'G' (by decide) (by decide) (by decide))
    simp [get_log_level, pyIntCast, hp, hs, levelNames]
  · have hp : pyStrToInt? s = none := pyStrToInt_none s "info" 'i' 'o' hs rfl rfl
      (goodLower_of_letter 'i' 'I' (by decide) (by decide) (by decide))
      (goodLower_of_letter 'o' 'O' (by decide) (by decide) (by decide))
    simp [get_log_level, pyIntCast, hp, hs, levelNames]
  · have hp : pyStrToInt? s = none := pyStrToInt_none s "warning" 'w' 'g' hs rfl rfl
      (goodLower_of_letter 'w' 'W' (by decide) (by decide) (by decide))
      (goodLower_of_letter 'g' 'G' (by decide) (by decide) (by decide))
    simp [get_log_level, pyIntCast, hp, hs, levelNames]
  · have hp : pyStrToInt? s = none := pyStrToInt_none s "success" 's' 's' hs rfl rfl
      (goodLower_of_letter 's' 'S' (by decide) (by decide) (by decide))
      (goodLower_of_letter 's' 'S' (by decide) (by decide) (by decide))
    simp [get_log_level, pyIntCast, hp, hs, levelNames]
  · have hp : pyStrToInt? s = none := pyStrToInt_none s "error" 'e' 'r' hs rfl rfl
      (goodLower_of_letter 'e' 'E' (by decide) (by decide) (by decide))
      (goodLower_of_letter 'r' 'R' (by decide) (by decide) (by decide))
    simp [get_log_level, pyIntCast, hp, hs, levelNames]
  · have hp : pyStrToInt? s = none := pyStrToInt_none s "critical" 'c' 'l' hs rfl rfl
      (goodLower_of_letter 'c' 'C' (by decide) (by decide) (by decide))
      (goodLower_of_letter 'l' 'L' (by decide) (by decide) (by decide))
    simp [get_log_level, pyIntCast, hp, hs, levelNames]

/-- Closed instance of `C1_level_names` at a mixed-case input. -/
theorem C1_level_names_witness : get_log_level (.PStr "SpAm") = .ok 5 :=
  C1_level_names "SpAm" "spam" 5 (by decide) (by rfl)

/-- C2: the numeric parse comes first: any string that `int()` accepts is
returned as that integer, before (and instead of) any name lookup or
invalid-string error. -/
theorem C2_numeric_first (s : String) (n : Int) (hparse : pyStrToInt? s = some n) :
    get_log_level (.PStr s) = .ok n := by
  simp [get_log_level, pyIntCast, hparse]

/-- Closed instance of `C2_numeric_first` at the string "17". -/
theorem C2_numeric_first_witness : get_log_level (.PStr "17") = .ok 17 :=
  C2_numeric_first "17" 17 (by rfl)

/-- C3: a string that neither parses as an integer nor lower-cases to one
of the seven names makes `get_log_level` raise `SystemExit` with a message
naming the invalid level string; no value is returned. -/
theorem C3_invalid_string (s : String) (hparse : pyStrToInt? s = none)
    (hname : pyLower s ∉ levelNames) :
    get_log_level (.PStr s) =
      .error (.systemExit ("ERROR: '" ++ s ++ "' is not a valid log level string.")) := by
  simp [get_log_level, pyIntCast, hparse, hname]

/-- Closed instance of `C3_invalid_string` at the string "verbose". -/
theorem C3_invalid_string_witness :
    get_log_level (.PStr "verbose") =
      .error (.systemExit "ERROR: 'verbose' is not a valid log level string.") :=
  C3_invalid_string "verbose" (by rfl) (by decide)

/-- C4: a value that is neither an integer, nor a string, nor numeric
(`int()` raises `TypeError` on it) makes `get_log_level` raise `SystemExit`
with the generic "integer or level name" message; no value is returned. -/
theorem C4_invalid_type (t : String) :
    get_log_level (.PObj t) =
      .error (.systemExit "ERROR: --log-level should be an integer or valid log level string.") :=
  rfl

/-- C9: every integer input is returned unchanged, with no range check:
negative ranks, zero, and ranks outside the table all come back as-is. -/
theorem C9_int_passthrough (n : Int) : get_log_level (.PInt n) = .ok n := rfl

/-- C5: once a registration succeeds, a second `addLoggingLevel` call with
the same level name raises `AttributeError` (for any rank and method-name
argument), and likewise any call whose derived method name already exists
on the logging module or on the logger class raises `AttributeError`; in
the embedding the error is returned, never swallowed. -/
theorem C5_second_registration_fails (st st' : LoggingState) (nm : String)
    (num : Int) (mo : Option String)
    (h : addLoggingLevel st nm num mo = (.ok (), st')) :
    (∀ num₂ mo₂, raisesAttributeError (addLoggingLevel st' nm num₂ mo₂)) ∧
    (∀ st₂ nm₂ num₂ mo₂,
      resolveMethodName nm₂ mo₂ ∈ st₂.moduleAttrs ∨
        resolveMethodName nm₂ mo₂ ∈ st₂.loggerClassAttrs →
      raisesAttributeError (addLoggingLevel st₂ nm₂ num₂ mo₂)) := by
  constructor
  · intro num₂ mo₂
    apply addLoggingLevel_error_of_collision
    left
    rw [(addLoggingLevel_ok_state st st' nm num mo h).1]
    exact List.mem_cons_of_mem _ (List.mem_cons_self _ _)
  · intro st₂ nm₂ num₂ mo₂ h₂
    exact addLoggingLevel_error_of_collision _ _ _ _ (Or.inr h₂)

/-- Closed instance of `C5_second_registration_fails`: registering "SPAM"
into an empty logging state and then registering it again. -/
theorem C5_second_registration_fails_witness :
    raisesAttributeError
      (addLoggingLevel ⟨["spam", "SPAM"], ["spam"], [(5, "SPAM")], [("SPAM", 5)]⟩
        "SPAM" 5 none) :=
  (C5_second_registration_fails ⟨[], [], [], []⟩
    ⟨["spam", "SPAM"], ["spam"], [(5, "SPAM")], [("SPAM", 5)]⟩
    "SPAM" 5 none (by rfl)).1 5 none

/-- C10: `addLoggingLevel` is atomic on failure: whenever it raises, the
logging state it leaves behind is exactly the input state. -/
theorem C10_atomic_on_failure (st : LoggingState) (nm : String) (num : Int)
    (mo : Option String) (e : PyError)
    (h : (addLoggingLevel st nm num mo).1 = .error e) :
    (addLoggingLevel st nm num mo).2 = st := by
  unfold addLoggingLevel at h ⊢
  by_cases h1 : nm ∈ st.moduleAttrs
  · simp [h1]
  · by_cases h2 : resolveMethodName nm mo ∈ st.moduleAttrs
    · simp [h1, h2]
    · by_cases h3 : resolveMethodName nm mo ∈ st.loggerClassAttrs
      · simp [h1, h2, h3]
      · simp [h1, h2, h3] at h

/-- Closed instance of `C10_atomic_on_failure` at a colliding name. -/
theorem C10_atomic_on_failure_witness :
    (addLoggingLevel ⟨["SPAM"], [], [], []⟩ "SPAM" 5 none).2 =
      (⟨["SPAM"], [], [], []⟩ : LoggingState) :=
  C10_atomic_on_failure ⟨["SPAM"], [], [], []⟩ "SPAM" 5 none
    (.attributeError "SPAM already defined in logging module") (by rfl)

/-- C8 counterexample: with rank 5 already registered (as "SPAM"), the
non-colliding name "VERBOSE" with the same rank 5 is accepted, not
rejected: `addLoggingLevel` checks no ranks at all and `addLevelName`
overwrites the entry for rank 5. -/
theorem C8_rank_check_counterexample :
    (addLoggingLevel ⟨["SPAM"], ["spam"], [(5, "SPAM")], [("SPAM", 5)]⟩
        "VERBOSE" 5 none).1 = .ok () ∧
    lookupAssoc (addLoggingLevel ⟨["SPAM"], ["spam"], [(5, "SPAM")], [("SPAM", 5)]⟩
        "VERBOSE" 5 none).2.levelToName 5 = some "VERBOSE" :=
  ⟨rfl, rfl⟩

/-- C8 amended: `addLoggingLevel` performs no rank-uniqueness check.
Whenever the new level name and its derived method name avoid the three
attribute-collision checks, registration succeeds even if the rank is
already present in the registry, and the level-to-name entry for that rank
is overwritten with the new name. -/
theorem C8_no_rank_check (st : LoggingState) (nm : String) (num : Int)
    (h1 : nm ∉ st.moduleAttrs) (h2 : pyLower nm ∉ st.moduleAttrs)
    (h3 : pyLower nm ∉ st.loggerClassAttrs) :
    (addLoggingLevel st nm num none).1 = .ok () ∧
    lookupAssoc (addLoggingLevel st nm num none).2.levelToName num = some nm := by
  have hm : resolveMethodName nm none = pyLower nm := rfl
  constructor
  · unfold addLoggingLevel
    simp [hm, h1, h2, h3]
  · unfold addLoggingLevel
    simp [hm, h1, h2, h3, lookup_updateAssoc]

/-- Closed instance of `C8_no_rank_check` at a state already holding
rank 5. -/
theorem C8_no_rank_check_witness :
    (addLoggingLevel ⟨["SPAM"], ["spam"], [(5, "SPAM")], [("SPAM", 5)]⟩
        "VERBOSE" 5 none).1 = .ok () ∧
    lookupAssoc (addLoggingLevel ⟨["SPAM"], ["spam"], [(5, "SPAM")], [("SPAM", 5)]⟩
        "VERBOSE" 5 none).2.levelToName 5 = some "VERBOSE" :=
  C8_no_rank_check ⟨["SPAM"], ["spam"], [(5, "SPAM")], [("SPAM", 5)]⟩
    "VERBOSE" 5 (by decide) (by decide) (by decide)

/-- C6: after a successful `logging_setup` on a fresh root logger, a
console sink carrying the shared format string
"%(asctime)s :: %(levelname)-8s :: %(funcName)-17s - %(message)s" is
attached, every attached sink carries that format string, and the root
logger level equals the supplied `logLevel`. -/
theorem C6_console_format_level (st : SetupState) (today : String) (logLevel : Int)
    (ltc ltf : Bool) (lp : String) (lst lst' : LoggingState)
    (hH : st.root.handlers = [])
    (e1 : addLoggingLevel st.logging "SPAM" 5 none = (.ok (), lst))
    (e2 : addLoggingLevel lst "SUCCESS" 35 none = (.ok (), lst')) :
    Sink.console (some fmtString) true ∈
        (logging_setup st today logLevel ltc ltf lp).2.root.handlers ∧
    (∀ sk ∈ (logging_setup st today logLevel ltc ltf lp).2.root.handlers,
        sinkFmt sk = some fmtString) ∧
    (logging_setup st today logLevel ltc ltf lp).2.root.level = logLevel := by
  rw [logging_setup_ok st today logLevel ltc ltf lp lst lst' e1 e2]
  refine ⟨by simp, ?_, rfl⟩
  intro sk hsk
  rw [hH] at hsk
  cases ltf <;> simp at hsk
  · subst hsk
    rfl
  · rcases hsk with rfl | rfl <;> rfl

/-- Closed instance of `C6_console_format_level` on a fresh state. -/
theorem C6_console_format_level_witness :
    Sink.console (some fmtString) true ∈
        (logging_setup ⟨⟨[], [], [], []⟩, ⟨[], 0⟩, []⟩ "20251012" 20 true false "").2.root.handlers ∧
    (∀ sk ∈ (logging_setup ⟨⟨[], [], [], []⟩, ⟨[], 0⟩, []⟩ "20251012" 20 true false "").2.root.handlers,
        sinkFmt sk = some fmtString) ∧
    (logging_setup ⟨⟨[], [], [], []⟩, ⟨[], 0⟩, []⟩ "20251012" 20 true false "").2.root.level = 20 :=
  C6_console_format_level ⟨⟨[], [], [], []⟩, ⟨[], 0⟩, []⟩ "20251012" 20 true false ""
    ⟨["spam", "SPAM"], ["spam"], [(5, "SPAM")], [("SPAM", 5)]⟩
    ⟨["success", "SUCCESS", "spam", "SPAM"], ["success", "spam"],
      [(5, "SPAM"), (35, "SUCCESS")], [("SPAM", 5), ("SUCCESS", 35)]⟩
    rfl rfl rfl

/-- C7: on a fresh state, a successful `logging_setup` attaches a file
sink if and only if `logToFile` is set: with `logToFile = false` no file
handler is attached and no file is created; with `logToFile = true` the
file `<today>.log` is created and a file handler for it, carrying the
same shared formatter as the console sink, is attached to the root
logger. -/
theorem C7_file_sink_iff (st : SetupState) (today : String) (logLevel : Int)
    (ltc : Bool) (lp : String) (lst lst' : LoggingState)
    (hH : st.root.handlers = []) (hFi : st.files = [])
    (e1 : addLoggingLevel st.logging "SPAM" 5 none = (.ok (), lst))
    (e2 : addLoggingLevel lst "SUCCESS" 35 none = (.ok (), lst')) :
    (∀ n f, Sink.file n f ∉ (logging_setup st today logLevel ltc false lp).2.root.handlers) ∧
    (logging_setup st today logLevel ltc false lp).2.files = [] ∧
    Sink.file (today ++ ".log") (some fmtString) ∈
        (logging_setup st today logLevel ltc true lp).2.root.handlers ∧
    Sink.console (some fmtString) true ∈
        (logging_setup st today logLevel ltc true lp).2.root.handlers ∧
    (logging_setup st today logLevel ltc true lp).2.files = [today ++ ".log"] := by
  rw [logging_setup_ok st today logLevel ltc false lp lst lst' e1 e2,
    logging_setup_ok st today logLevel ltc true lp lst lst' e1 e2]
  simp [hH, hFi]

/-- Closed instance of `C7_file_sink_iff` on a fresh state. -/
theorem C7_file_sink_iff_witness :
    (∀ n f, Sink.file n f ∉
        (logging_setup ⟨⟨[], [], [], []⟩, ⟨[], 0⟩, []⟩ "20251012" 20 true false "").2.root.handlers) ∧
    (logging_setup ⟨⟨[], [], [], []⟩, ⟨[], 0⟩, []⟩ "20251012" 20 true false "").2.files = [] ∧
    Sink.file ("20251012" ++ ".log") (some fmtString) ∈
        (logging_setup ⟨⟨[], [], [], []⟩, ⟨[], 0⟩, []⟩ "20251012" 20 true true "").2.root.handlers ∧
    Sink.console (some fmtString) true ∈
        (logging_setup ⟨⟨[], [], [], []⟩, ⟨[], 0⟩, []⟩ "20251012" 20 true true "").2.root.handlers ∧
    (logging_setup ⟨⟨[], [], [], []⟩, ⟨[], 0⟩, []⟩ "20251012" 20 true true "").2.files =
      ["20251012" ++ ".log"] :=
  C7_file_sink_iff ⟨⟨[], [], [], []⟩, ⟨[], 0⟩, []⟩ "20251012" 20 true ""
    ⟨["spam", "SPAM"], ["spam"], [(5, "SPAM")], [("SPAM", 5)]⟩
    ⟨["success", "SUCCESS", "spam", "SPAM"], ["success", "spam"],
      [(5, "SPAM"), (35, "SUCCESS")], [("SPAM", 5), ("SUCCESS", 35)]⟩
    rfl rfl rfl rfl
